import Mathlib

/-!
# Verification of the DAIRY billing and reconciliation engine

Shallow embedding of the billing-page computations of `src/main.py`
(functions `payments_for_customer_in_period`, `current_outstanding_from_bills`,
`total_delivered_for_customer`, `build_delivery_calendar_html`'s day map and
day-status classifier, the quick due estimate, and the generated invoice row).

Modelling conventions:
* Python floats are modelled as `ℚ` (exact arithmetic; binary floating point
  rounding is out of scope).
* `pandas` timestamps normalised to day precision are modelled as `ℤ`
  (a day number); `NaT` is `Option.none`.
* A raw spreadsheet cell is modelled as a `Cell` carrying its `pd.to_numeric`
  view (`none` = NaN), its `pd.to_datetime` view (`none` = NaT), its string
  form and its `pd.isna` flag.
* `pd.to_numeric(col, errors="coerce").fillna(v)` is `Option.getD` applied
  per cell; comparisons against `NaT` are `false`, as in pandas.
* Python `round(x, n)` is modelled as decimal round-half-even on `ℚ`.
-/

/-- Round-half-even of a rational to an integer (Python `round` semantics on
exact values). -/
def roundHalfEven (q : ℚ) : ℤ :=
  if Int.fract q < 1/2 then ⌊q⌋
  else if 1/2 < Int.fract q then ⌊q⌋ + 1
  else if 2 ∣ ⌊q⌋ then ⌊q⌋ else ⌊q⌋ + 1

/-- Python `round(x, 2)` on the `ℚ` model. -/
def round2 (q : ℚ) : ℚ := (roundHalfEven (q * 100) : ℚ) / 100

/-- Python `round(x, 3)` on the `ℚ` model. -/
def round3 (q : ℚ) : ℚ := (roundHalfEven (q * 1000) : ℚ) / 1000

/-- Python `str.lower()` (character-wise; list-based so that it evaluates). -/
def pyLower (s : String) : String := (s.toList.map Char.toLower).asString

/-- Python `str.strip()`. -/
def pyStrip (s : String) : String :=
  ((s.toList.dropWhile Char.isWhitespace).reverse.dropWhile Char.isWhitespace).reverse.asString

/-- Helper for Python `str.split()` (no separator): accumulate the current
word (reversed) and cut at whitespace runs. -/
def pyWordsAux : List Char → List Char → List String
  | [], cur => if cur.isEmpty then [] else [cur.reverse.asString]
  | c :: cs, cur =>
    if c.isWhitespace then
      if cur.isEmpty then pyWordsAux cs [] else cur.reverse.asString :: pyWordsAux cs []
    else pyWordsAux cs (c :: cur)

/-- Python `str.split()` with no argument: whitespace runs separate words,
no empty words are produced. -/
def pyWords (s : String) : List String := pyWordsAux s.toList []

/-- `norm_name` from `src/main.py` applied to an ordinary string:
`" ".join(str(x).strip().lower().split())`. -/
def normNameStr (s : String) : String :=
  String.intercalate " " (pyWords (pyLower (pyStrip s)))

/-- A spreadsheet cell with its coerced views (see module docstring). -/
structure Cell where
  isna : Bool
  str : String
  num : Option ℚ
  dateVal : Option ℤ
deriving DecidableEq

/-- A NaN cell (what pandas yields for a missing value). -/
def Cell.na : Cell := ⟨true, "", none, none⟩

/-- A plain text cell. -/
def Cell.ofStr (s : String) : Cell := ⟨false, s, none, none⟩

/-- A numeric cell. -/
def Cell.ofNum (q : ℚ) : Cell := ⟨false, "", some q, none⟩

/-- A date cell. -/
def Cell.ofDate (d : ℤ) : Cell := ⟨false, "", none, some d⟩

/-- `norm_name` from `src/main.py` applied to a cell: NaN maps to `""`. -/
def normNameCell (c : Cell) : String := if c.isna then "" else normNameStr c.str

/-- A row of a generic table, cells indexed by column name. -/
structure TblRow where
  cells : List (String × Cell)
deriving DecidableEq

/-- Select a cell by column name (pandas columns are uniform, so a lookup
miss only happens for tables built inconsistently; it yields NaN). -/
def TblRow.cell (r : TblRow) (c : String) : Cell := (r.cells.lookup c).getD Cell.na

/-- A generic table: column names plus rows. -/
structure Tbl where
  cols : List String
  rows : List TblRow
deriving DecidableEq

/-- `(dfp["Date_dt"] >= start) & (dfp["Date_dt"] <= end)` on one value:
comparisons against `NaT` are `false` in pandas. -/
def inRange (s t : ℤ) (d : Option ℤ) : Bool :=
  match d with
  | some x => decide (s ≤ x) && decide (x ≤ t)
  | none => false

/-- `next((c for c in pay_df.columns if c.lower() in ("name","customer",
"received by","receivedby")), None)` from `payments_for_customer_in_period`. -/
def findNameCol (cols : List String) : Option String :=
  cols.find? (fun c => ["name", "customer", "received by", "receivedby"].contains (pyLower c))

/-- Python's substring test `needle in hay` on strings. -/
def strContainsSub (needle hay : String) : Bool :=
  (List.range (hay.toList.length + 1)).any
    (fun i => (needle.toList).isPrefixOf (hay.toList.drop i))

/-- `next((c for c in pay_df.columns if "amount" in c.lower()), None)`. -/
def findAmountCol (cols : List String) : Option String :=
  cols.find? (fun c => strContainsSub "amount" (pyLower c))

/-- The `Name_norm` / `Amt_num` / `Date_dt` columns that
`payments_for_customer_in_period` adds to its working copy `dfp`. -/
structure PayNormRow where
  nameNorm : String
  amt : ℚ
  dateDt : Option ℤ
deriving DecidableEq

/-- `payments_for_customer_in_period(pay_df, cust_raw, start, end)` from
`src/main.py` (billing page).  Returns the period payment total and the
period-filtered rows (the returned `dfp_period`). -/
def payments_for_customer_in_period (pay : Tbl) (cust : String) (s t : ℤ) :
    ℚ × List PayNormRow :=
  if pay.rows.isEmpty then (0, [])
  else
    match findAmountCol pay.cols with
    | none => (0, [])
    | some ac =>
      let nc := findNameCol pay.cols
      let dfp : List PayNormRow := pay.rows.map (fun r =>
        { nameNorm := match nc with
            | some n => normNameCell (r.cell n)
            | none => ""
          amt := ((r.cell ac).num).getD 0
          dateDt := if "Date" ∈ pay.cols then (r.cell "Date").dateVal else none })
      let period := dfp.filter (fun r => inRange s t r.dateDt)
      if cust = "All customers" then ((period.map PayNormRow.amt).sum, period)
      else
        (((period.filter (fun r => r.nameNorm == normNameStr cust)).map PayNormRow.amt).sum,
         period)

/-- A row of a morning/evening distribution table: the parsed `Date` value
(`none` = NaT) plus, for every customer column, the `pd.to_numeric` view of
that cell (`none` = NaN). -/
structure DistRow where
  date : Option ℤ
  cells : List (String × Option ℚ)
deriving DecidableEq

/-- The numeric view of a cell after `pd.to_numeric(..., errors="coerce").fillna(0)`. -/
def DistRow.qty (r : DistRow) (c : String) : ℚ := ((r.cells.lookup c).getD none).getD 0

/-- A morning/evening distribution table (wide format: one column per customer). -/
structure DistTbl where
  cols : List String
  rows : List DistRow
deriving DecidableEq

/-- `[c for c in df.columns if c.lower() not in ("date","timestamp")]`. -/
def nonDateCols (cols : List String) : List String :=
  cols.filter (fun c => pyLower c ≠ "date" && pyLower c ≠ "timestamp")

/-- One shift's contribution inside `total_delivered_for_customer`:
guarded by `df is not None and not df.empty and cust in df.columns`, then
`pd.to_numeric(df.loc[(df.Date >= start) & (df.Date <= end), cust],
errors="coerce").fillna(0).sum()`. -/
def total_delivered_part (df : DistTbl) (cust : String) (s t : ℤ) : ℚ :=
  if df.rows ≠ [] ∧ cust ∈ df.cols then
    ((df.rows.filter (fun r => inRange s t r.date)).map (fun r => r.qty cust)).sum
  else 0

/-- `total_delivered_for_customer(df_morn, df_even, cust, start, end)` from
`src/main.py` (billing page). -/
def total_delivered_for_customer (dfm dfe : DistTbl) (cust : String) (s t : ℤ) : ℚ :=
  total_delivered_part dfm cust s t + total_delivered_part dfe cust s t

/-- The per-day quantity drawn from one table for a single customer in
`build_delivery_calendar_html`: rows whose normalised `Date` equals the day,
summed over the customer's column (0 when the table is empty, the customer
has no column, or no row matches — the code's `mask.any()` guard leaves the
initial 0 in place, which coincides with an empty sum). -/
def calSumOne (df : DistTbl) (cust : String) (d : ℤ) : ℚ :=
  if df.rows ≠ [] ∧ cust ∈ df.cols then
    ((df.rows.filter (fun r => r.date == some d)).map (fun r => r.qty cust)).sum
  else 0

/-- The per-day quantity drawn from one table in the `"All customers"` branch
of `build_delivery_calendar_html`: matching rows summed over every
non-`Date`/`Timestamp` column. -/
def calSumAll (df : DistTbl) (d : ℤ) : ℚ :=
  if df.rows ≠ [] ∧ "Date" ∈ df.cols then
    ((df.rows.filter (fun r => r.date == some d)).map
      (fun r => ((nonDateCols df.cols).map (fun c => r.qty c)).sum)).sum
  else 0

/-- The `(m_val, e_val)` pair stored in `day_map[d]` by
`build_delivery_calendar_html`. -/
def dayQuantities (dfm dfe : DistTbl) (cust : String) (d : ℤ) : ℚ × ℚ :=
  if cust = "All customers" then (calSumAll dfm d, calSumAll dfe d)
  else (calSumOne dfm cust d, calSumOne dfe cust d)

/-- `pd.date_range(start=start_ts, end=end_ts, freq="D")` on day numbers. -/
def dateRange (s t : ℤ) : List ℤ :=
  (List.range (t - s + 1).toNat).map (fun i : ℕ => s + (i : ℤ))

/-- The `day_map` built by `build_delivery_calendar_html`: one entry per day
of the window, in date order (Python dicts preserve insertion order). -/
def buildDayMap (dfm dfe : DistTbl) (cust : String) (s t : ℤ) :
    List (ℤ × ℚ × ℚ) :=
  (dateRange s t).map (fun d => (d, dayQuantities dfm dfe cust d))

/-- The css class chosen for an in-window day cell in
`build_delivery_calendar_html` (lines 1047-1057 of `src/main.py`):
`morning_ok = mval > 0`, `evening_ok = eval_ > 0`, then a four-way branch.
Per the legend, `"white-cell"` is BothPresent ("Both shifts delivered"),
`"yellow-cell"` is EveningMissing ("No evening (only morning)"),
`"pink-cell"` is MorningMissing ("No morning (only evening)") and
`"red-cell"` is BothMissing ("No shift delivery"). -/
def dayStatusClass (mval ev : ℚ) : String :=
  let morning_ok := decide (mval > 0)
  let evening_ok := decide (ev > 0)
  if morning_ok && evening_ok then "white-cell"
  else if morning_ok && !evening_ok then "yellow-cell"
  else if !morning_ok && evening_ok then "pink-cell"
  else "red-cell"

/-- `current_outstanding_from_bills(bills_df, cust_raw)` from `src/main.py`:
the prior-balance total read from the optional Bills sheet.  The returned
display subset (second component in the code) is dropped here; only the
total feeds further computation. -/
def current_outstanding_from_bills (bills : Tbl) (cust : String) : ℚ :=
  if bills.rows.isEmpty then 0
  else
    let nameCol : Option String :=
      if "CustomerName" ∈ bills.cols then some "CustomerName"
      else bills.cols.find? (fun c => strContainsSub "customer" (pyLower c))
    match nameCol with
    | none => 0
    | some ncol =>
      let vals : List (String × ℚ) := bills.rows.map (fun r =>
        let ab : ℚ := if "AmountBilled" ∈ bills.cols then ((r.cell "AmountBilled").num).getD 0 else 0
        let pa : ℚ := if "PaymentsApplied" ∈ bills.cols then ((r.cell "PaymentsApplied").num).getD 0 else 0
        let bal : ℚ := if "Balance" ∈ bills.cols then ((r.cell "Balance").num).getD (ab - pa) else ab - pa
        (normNameCell (r.cell ncol), bal))
      if cust = "All customers" then (vals.map Prod.snd).sum
      else ((vals.filter (fun p => p.1 == normNameStr cust)).map Prod.snd).sum

/-- The detailed invoice preview row built for a single customer
(lines 1177-1192 of `src/main.py`); only the computed fields are modelled
(`BillID` and the date fields are formatting/wall-clock only). -/
structure InvoiceRow where
  totalMilkLitres : ℚ
  ratePerL : ℚ
  milkCharge : ℚ
  amountBilled : ℚ
  paymentsApplied : ℚ
  balance : ℚ
  status : String
deriving DecidableEq

/-- `generated_amount = round(total_l * float(rate_l), 2)` (line 1156 of
`src/main.py`): the period charge for one customer. -/
def generated_amount (dfm dfe : DistTbl) (cust : String) (s t : ℤ) (rate : ℚ) : ℚ :=
  round2 (total_delivered_for_customer dfm dfe cust s t * rate)

/-- The single-customer branch of the billing page (lines 1154-1194 of
`src/main.py`): the quick due estimate
`round(current_outstanding + generated_amount - payments_period, 2)`
plus the generated invoice preview row. -/
def singleCustomerBilling (dfm dfe : DistTbl) (pay bills : Tbl) (cust : String)
    (s t : ℤ) (rate : ℚ) : ℚ × InvoiceRow :=
  let total_l := total_delivered_for_customer dfm dfe cust s t
  let payments_period := (payments_for_customer_in_period pay cust s t).1
  let current_outstanding := current_outstanding_from_bills bills cust
  (round2 (current_outstanding + generated_amount dfm dfe cust s t rate - payments_period),
   { totalMilkLitres := round3 total_l
     ratePerL := rate
     milkCharge := round2 (total_l * rate)
     amountBilled := round2 (total_l * rate)
     paymentsApplied := 0
     balance := round2 (total_l * rate)
     status := "DUE" })

/-- The `custs_list` built in the `"All customers"` branch (line 1137):
non-date columns of both distribution tables, blanks dropped,
deduplicated via `sorted(set(...))` (order is irrelevant to the sum). -/
def allCustomersList (dfm dfe : DistTbl) : List String :=
  ((nonDateCols dfm.cols ++ nonDateCols dfe.cols).filter (fun c => c.trim ≠ "")).dedup

/-- `generated_total` from the `"All customers"` branch (lines 1139-1141):
the sum of the per-customer rounded charges. -/
def generated_total (dfm dfe : DistTbl) (s t : ℤ) (rate : ℚ) : ℚ :=
  ((allCustomersList dfm dfe).map
    (fun c => round2 (total_delivered_for_customer dfm dfe c s t * rate))).sum

/-- The `"All customers"` branch of the billing page (lines 1136-1144):
the quick due estimate `round(outstanding + generated_total - payments, 2)`. -/
def allCustomersQuickDue (dfm dfe : DistTbl) (pay bills : Tbl) (s t : ℤ) (rate : ℚ) : ℚ :=
  let payments_period_total := (payments_for_customer_in_period pay "All customers" s t).1
  let current_outstanding_total := current_outstanding_from_bills bills "All customers"
  round2 (current_outstanding_total + generated_total dfm dfe s t rate - payments_period_total)

/-- Modelled from the spec: `src/main.py` computes no `final_payable`; §3's
CycleSummary defines `final_payable = max(gross_amount − early_payments, 0)`. -/
def final_payable (gross early : ℚ) : ℚ := max (gross - early) 0

/-- Modelled from the spec: `src/main.py` computes no `credit`; §3's
CycleSummary defines `credit = max(early_payments − gross_amount, 0)`. -/
def creditOf (gross early : ℚ) : ℚ := max (early - gross) 0

/-! ## Concrete tables used in witnesses and counterexamples -/

/-- An empty payment/bills table. -/
def emptyTbl : Tbl := { cols := [], rows := [] }

/-- A payment table with the usual columns but no rows: a table with
genuinely no payments. -/
def noPaymentsTbl : Tbl := { cols := ["Name", "Amount", "Date"], rows := [] }

/-- A payment table whose columns carry no amount-like name. -/
def noAmountColTbl : Tbl :=
  { cols := ["Name", "Litres", "Date"]
    rows := [ { cells := [("Name", Cell.ofStr "a"), ("Litres", Cell.ofNum 12),
                          ("Date", Cell.ofDate 5)] } ] }

/-- A payment table holding one payment of `amt` for customer `"a"` dated `d`. -/
def singlePaymentTbl (amt : ℚ) (d : ℤ) : Tbl :=
  { cols := ["Name", "Amount", "Date"]
    rows := [ { cells := [("Name", Cell.ofStr "a"), ("Amount", Cell.ofNum amt),
                          ("Date", Cell.ofDate d)] } ] }

/-- A payment table holding one payment of `amt` for customer `"a"` whose
date cell is missing/unparseable (`NaT`). -/
def nullDatePaymentTbl (amt : ℚ) : Tbl :=
  { cols := ["Name", "Amount", "Date"]
    rows := [ { cells := [("Name", Cell.ofStr "a"), ("Amount", Cell.ofNum amt),
                          ("Date", Cell.na)] } ] }

/-- An empty distribution table. -/
def emptyDist : DistTbl := { cols := [], rows := [] }

/-- The §8 scenario's morning table: customer `"CUST001"`, 2.0 L on day 1. -/
def mornScenario : DistTbl :=
  { cols := ["Date", "CUST001"]
    rows := [ { date := some 1, cells := [("CUST001", some 2)] } ] }

/-- The §8 scenario's evening table: customer `"CUST001"`, 1.0 L on day 1. -/
def evenScenario : DistTbl :=
  { cols := ["Date", "CUST001"]
    rows := [ { date := some 1, cells := [("CUST001", some 1)] } ] }

/-! ## Helper lemmas -/

/-- `roundHalfEven` of anything below `-1/2` is negative. -/
lemma roundHalfEven_neg {x : ℚ} (h : x < -(1/2)) : roundHalfEven x < 0 := by
  have hfl : (⌊x⌋ : ℚ) ≤ x := Int.floor_le x
  have hfr : Int.fract x = x - ⌊x⌋ := rfl
  have hd : ∀ z : ℤ, (z : ℚ) < 0 → z < 0 := fun z hz => by exact_mod_cast hz
  unfold roundHalfEven
  split_ifs with h1 h2 h3
  · exact hd _ (lt_of_le_of_lt hfl (by linarith))
  · have h3 : (⌊x⌋ : ℚ) < -1 := by rw [hfr] at h2; linarith
    have h4 : ((⌊x⌋ + 1 : ℤ) : ℚ) < 0 := by push_cast; linarith
    exact hd _ h4
  · exact hd _ (lt_of_le_of_lt hfl (by linarith))
  · have hx : Int.fract x = 1/2 := le_antisymm (not_lt.mp h2) (not_lt.mp h1)
    have h3 : (⌊x⌋ : ℚ) < -1 := by rw [hfr] at hx; linarith
    have h4 : ((⌊x⌋ + 1 : ℤ) : ℚ) < 0 := by push_cast; linarith
    exact hd _ h4

/-- `round2` of anything below `-1/200` (half a paisa below zero) is negative:
the 2-decimal rounding cannot pull such a value up to 0. -/
lemma round2_neg {q : ℚ} (h : q < -(1/200)) : round2 q < 0 := by
  have hx : q * 100 < -(1/2) := by linarith
  have h2 := roundHalfEven_neg hx
  unfold round2
  apply div_neg_of_neg_of_pos _ (by norm_num)
  exact_mod_cast h2

/-- Evaluation of the payment pipeline on a one-payment table: the payment
is counted exactly when its date lies in `[s, t]`. -/
lemma single_payment_total (amt : ℚ) (d s t : ℤ) :
    (payments_for_customer_in_period (singlePaymentTbl amt d) "a" s t).1 =
      if s ≤ d ∧ d ≤ t then amt else 0 := by
  by_cases h : s ≤ d ∧ d ≤ t
  · simp only [payments_for_customer_in_period, singlePaymentTbl, if_pos h]
    simp [inRange, TblRow.cell, List.lookup, normNameCell, normNameStr, Cell.ofStr,
      Cell.ofNum, Cell.ofDate, h.1, h.2,
      show findAmountCol ["Name", "Amount", "Date"] = some "Amount" from by decide,
      show findNameCol ["Name", "Amount", "Date"] = some "Name" from by decide]
  · simp only [payments_for_customer_in_period, singlePaymentTbl, if_neg h]
    rw [Decidable.not_and_iff_or_not] at h
    rcases h with h | h
    · simp [inRange, TblRow.cell, List.lookup, Cell.ofDate, not_le.mp h,
        show findAmountCol ["Name", "Amount", "Date"] = some "Amount" from by decide]
    · simp [inRange, TblRow.cell, List.lookup, Cell.ofDate, not_le.mp h,
        show findAmountCol ["Name", "Amount", "Date"] = some "Amount" from by decide]

/-- Evaluation of the payment pipeline on a table whose single payment has a
null (`NaT`) date: the period mask `(Date_dt >= start) & (Date_dt <= end)` is
false for `NaT`, so nothing is counted, for any period and any customer. -/
lemma null_date_payment_total (amt : ℚ) (cust : String) (s t : ℤ) :
    (payments_for_customer_in_period (nullDatePaymentTbl amt) cust s t).1 = 0 := by
  simp only [payments_for_customer_in_period, nullDatePaymentTbl]
  simp [inRange, TblRow.cell, List.lookup, Cell.ofStr, Cell.ofNum, Cell.na,
    show findAmountCol ["Name", "Amount", "Date"] = some "Amount" from by decide,
    show findNameCol ["Name", "Amount", "Date"] = some "Name" from by decide]

/-! ## Claims -/

/-- C1: for every cycle computed from the code's period charge
(`generated_amount`, line 1156) and early payments
(`payments_for_customer_in_period`, lines 1084-1101), the spec-modelled
`final_payable = max(gross − early, 0)` and `credit = max(early − gross, 0)`
satisfy `final_payable − credit = gross − early` and
`min(final_payable, credit) = 0`. -/
theorem C1_balance_identity (dfm dfe : DistTbl) (pay : Tbl) (cust : String)
    (s t : ℤ) (rate : ℚ) :
    final_payable (generated_amount dfm dfe cust s t rate)
        (payments_for_customer_in_period pay cust s t).1
      - creditOf (generated_amount dfm dfe cust s t rate)
        (payments_for_customer_in_period pay cust s t).1
      = generated_amount dfm dfe cust s t rate
        - (payments_for_customer_in_period pay cust s t).1
    ∧ min (final_payable (generated_amount dfm dfe cust s t rate)
          (payments_for_customer_in_period pay cust s t).1)
        (creditOf (generated_amount dfm dfe cust s t rate)
          (payments_for_customer_in_period pay cust s t).1) = 0 := by
  set g := generated_amount dfm dfe cust s t rate with hg
  set p := (payments_for_customer_in_period pay cust s t).1 with hp
  unfold final_payable creditOf
  rcases le_total p g with h | h
  · rw [max_eq_left (by linarith), max_eq_right (by linarith)]
    exact ⟨by ring, min_eq_right (by linarith)⟩
  · rw [max_eq_right (by linarith), max_eq_left (by linarith)]
    exact ⟨by ring, min_eq_left (by linarith)⟩

/-- C2 counterexample: a payment of 50 dated on day 0, far before a cycle
running over days 1000..1029, contributes nothing to that cycle's early
payments — the claim predicts it is still counted (total 50). -/
theorem C2_counterexample_old_payment_excluded :
    (payments_for_customer_in_period (singlePaymentTbl 50 0) "a" 1000 1029).1 = 0
    ∧ (0 : ℚ) ≠ 50 := by
  constructor
  · rw [single_payment_total, if_neg (by omega)]
  · norm_num

/-- C2 (amended): dated payments are filtered by BOTH a lower bound
(`date ≥ cycle_start`) and an upper bound (`date ≤ cycle_end`); a payment
dated before cycle_start is excluded from the cycle's early payments, one
dated inside the window is counted, one dated after is excluded. -/
theorem C2_amended_both_bounds (amt : ℚ) (d s t : ℤ) :
    (d < s → (payments_for_customer_in_period (singlePaymentTbl amt d) "a" s t).1 = 0)
    ∧ (s ≤ d ∧ d ≤ t →
        (payments_for_customer_in_period (singlePaymentTbl amt d) "a" s t).1 = amt)
    ∧ (t < d → (payments_for_customer_in_period (singlePaymentTbl amt d) "a" s t).1 = 0) := by
  refine ⟨fun h => ?_, fun h => ?_, fun h => ?_⟩
  · rw [single_payment_total, if_neg (by omega)]
  · rw [single_payment_total, if_pos h]
  · rw [single_payment_total, if_neg (by omega)]

/-- Witness for C2's amended theorem at concrete inputs: day 0 is before the
window 1000..1029 (excluded), day 1000 is inside (counted), day 1030 is
after (excluded). -/
theorem C2_amended_both_bounds_witness :
    (payments_for_customer_in_period (singlePaymentTbl 50 0) "a" 1000 1029).1 = 0
    ∧ (payments_for_customer_in_period (singlePaymentTbl 50 1000) "a" 1000 1029).1 = 50
    ∧ (payments_for_customer_in_period (singlePaymentTbl 50 1030) "a" 1000 1029).1 = 0 :=
  ⟨(C2_amended_both_bounds 50 0 1000 1029).1 (by norm_num),
   (C2_amended_both_bounds 50 1000 1000 1029).2.1 (by norm_num),
   (C2_amended_both_bounds 50 1030 1000 1029).2.2 (by norm_num)⟩

/-- C3 counterexample: a payment of 75 with a null date contributes nothing
to the cycle over days 1..30 — the claim predicts it is summed
unconditionally (total 75). -/
theorem C3_counterexample_null_date_excluded :
    (payments_for_customer_in_period (nullDatePaymentTbl 75) "a" 1 30).1 = 0
    ∧ (0 : ℚ) ≠ 75 :=
  ⟨null_date_payment_total 75 "a" 1 30, by norm_num⟩

/-- C3 (amended): a payment whose date is null (missing or unparseable,
`NaT`) NEVER qualifies: `NaT` fails the period mask
`(Date_dt >= start) & (Date_dt <= end)`, so such payments are excluded from
every cycle's early payments, for the single-customer and the
`"All customers"` computation alike. -/
theorem C3_amended_null_date_never_counted (amt : ℚ) (s t : ℤ) :
    (payments_for_customer_in_period (nullDatePaymentTbl amt) "a" s t).1 = 0
    ∧ (payments_for_customer_in_period (nullDatePaymentTbl amt) "All customers" s t).1 = 0 :=
  ⟨null_date_payment_total amt "a" s t, null_date_payment_total amt "All customers" s t⟩

/-- The §8 scenario's payment table: 200.0 for `"CUST001"` dated on day 3,
the cycle end of the 3-day cycle starting on day 1. -/
def scenarioPayOnEnd : Tbl :=
  { cols := ["Name", "Amount", "Date"]
    rows := [ { cells := [("Name", Cell.ofStr "CUST001"), ("Amount", Cell.ofNum 200),
                          ("Date", Cell.ofDate 3)] } ] }

/-- The §8 scenario's payment table with the payment dated one day after the
cycle end. -/
def scenarioPayAfterEnd : Tbl :=
  { cols := ["Name", "Amount", "Date"]
    rows := [ { cells := [("Name", Cell.ofStr "CUST001"), ("Amount", Cell.ofNum 200),
                          ("Date", Cell.ofDate 4)] } ] }

/-- C4: the upper date bound on qualifying payments is inclusive-exact: for
any window `[s, t]`, a payment dated exactly `t` is counted and one dated
`t + 1` is not; in the §8 scenario (gross 135 = 3 L × 45, payment 200 dated
on the cycle end, day 3 of the 3-day cycle 1..3) the early payments are 200,
`final_payable` is 0 and `credit` is 65, while with the payment dated day 4
the early payments are 0 and `final_payable` stays 135. -/
theorem C4_inclusive_end_boundary (s t : ℤ) (amt : ℚ) (h : s ≤ t) :
    (payments_for_customer_in_period (singlePaymentTbl amt t) "a" s t).1 = amt
    ∧ (payments_for_customer_in_period (singlePaymentTbl amt (t + 1)) "a" s t).1 = 0
    ∧ (payments_for_customer_in_period scenarioPayOnEnd "CUST001" 1 3).1 = 200
    ∧ generated_amount mornScenario evenScenario "CUST001" 1 3 45 = 135
    ∧ final_payable (generated_amount mornScenario evenScenario "CUST001" 1 3 45) 200 = 0
    ∧ creditOf (generated_amount mornScenario evenScenario "CUST001" 1 3 45) 200 = 65
    ∧ (payments_for_customer_in_period scenarioPayAfterEnd "CUST001" 1 3).1 = 0
    ∧ final_payable (generated_amount mornScenario evenScenario "CUST001" 1 3 45) 0 = 135 := by
  refine ⟨?_, ?_, ?_, ?_, ?_, ?_, ?_, ?_⟩
  · rw [single_payment_total, if_pos ⟨h, le_refl t⟩]
  · rw [single_payment_total, if_neg (by omega)]
  · with_unfolding_all decide
  · with_unfolding_all decide
  · with_unfolding_all decide
  · with_unfolding_all decide
  · with_unfolding_all decide
  · with_unfolding_all decide

/-- Witness for C4 at the §8 window 1..3 with a payment of 200. -/
theorem C4_inclusive_end_boundary_witness :
    (payments_for_customer_in_period (singlePaymentTbl 200 3) "a" 1 3).1 = 200
    ∧ (payments_for_customer_in_period (singlePaymentTbl 200 4) "a" 1 3).1 = 0 :=
  ⟨(C4_inclusive_end_boundary 1 3 200 (by norm_num)).1,
   (C4_inclusive_end_boundary 1 3 200 (by norm_num)).2.1⟩

/-- A day with no matching source row contributes an empty single-customer
calendar sum. -/
lemma calSumOne_eq_zero (df : DistTbl) (cust : String) (d : ℤ)
    (h : ∀ r ∈ df.rows, r.date ≠ some d) : calSumOne df cust d = 0 := by
  unfold calSumOne
  split_ifs with hc
  · have hf : df.rows.filter (fun r => r.date == some d) = [] := by
      rw [List.filter_eq_nil_iff]
      intro a ha
      simpa using h a ha
    rw [hf]
    simp
  · rfl

/-- A day with no matching source row contributes an empty all-customers
calendar sum. -/
lemma calSumAll_eq_zero (df : DistTbl) (d : ℤ)
    (h : ∀ r ∈ df.rows, r.date ≠ some d) : calSumAll df d = 0 := by
  unfold calSumAll
  split_ifs with hc
  · have hf : df.rows.filter (fun r => r.date == some d) = [] := by
      rw [List.filter_eq_nil_iff]
      intro a ha
      simpa using h a ha
    rw [hf]
    simp
  · rfl

/-- C5: for a cycle window of `N` days starting at `s` (so ending at
`s + N - 1`), the day map built by `build_delivery_calendar_html` has exactly
`N` entries, the `i`-th entry is for date `s + i`, and a date with no source
delivery row in either table still gets an entry with both quantities 0. -/
theorem C5_day_coverage (dfm dfe : DistTbl) (cust : String) (s : ℤ) (N : ℕ) :
    (buildDayMap dfm dfe cust s (s + N - 1)).length = N
    ∧ ∀ i : ℕ, i < N →
        ((buildDayMap dfm dfe cust s (s + N - 1)).getD i (0, 0, 0)).1 = s + i
        ∧ ((∀ r ∈ dfm.rows, r.date ≠ some (s + i)) →
           (∀ r ∈ dfe.rows, r.date ≠ some (s + i)) →
            ((buildDayMap dfm dfe cust s (s + N - 1)).getD i (0, 0, 0)).2 = (0, 0)) := by
  have hn : (s + (N : ℤ) - 1 - s + 1).toNat = N := by omega
  have hrange : dateRange s (s + N - 1) = (List.range N).map (fun i : ℕ => s + (i : ℤ)) := by
    unfold dateRange
    rw [hn]
  have hmap : buildDayMap dfm dfe cust s (s + N - 1) =
      (List.range N).map
        (fun i : ℕ => (s + (i : ℤ), dayQuantities dfm dfe cust (s + (i : ℤ)))) := by
    unfold buildDayMap
    rw [hrange, List.map_map]
    rfl
  constructor
  · rw [hmap]; simp
  · intro i hi
    have hget : (buildDayMap dfm dfe cust s (s + N - 1)).getD i (0, 0, 0) =
        (s + i, dayQuantities dfm dfe cust (s + i)) := by
      rw [hmap, List.getD_eq_getElem?_getD, List.getElem?_map, List.getElem?_range hi]
      rfl
    refine ⟨by rw [hget], fun hm he => ?_⟩
    rw [hget]
    by_cases hc : cust = "All customers"
    · simp [dayQuantities, hc, calSumAll_eq_zero dfm _ hm, calSumAll_eq_zero dfe _ he]
    · simp [dayQuantities, hc, calSumOne_eq_zero dfm cust _ hm, calSumOne_eq_zero dfe cust _ he]

/-- Witness for C5 on the §8 scenario's sparse 3-day cycle (deliveries only
on day 1): three entries, the third is for day 3 with quantities (0, 0). -/
theorem C5_day_coverage_witness :
    (buildDayMap mornScenario evenScenario "CUST001" 1 3).length = 3
    ∧ ((buildDayMap mornScenario evenScenario "CUST001" 1 3).getD 2 (0, 0, 0)).1 = 3
    ∧ ((buildDayMap mornScenario evenScenario "CUST001" 1 3).getD 2 (0, 0, 0)).2 = (0, 0) := by
  have h := C5_day_coverage mornScenario evenScenario "CUST001" 1 3
  have e : (1 + ((3 : ℕ) : ℤ) - 1) = (3 : ℤ) := by norm_num
  rw [e] at h
  obtain ⟨h1, h2⟩ := h
  have h3 := h2 2 (by norm_num)
  refine ⟨h1, ?_, h3.2 (by decide) (by decide)⟩
  have h4 := h3.1
  norm_num at h4 ⊢
  exact h4

/-- C6: the day-status classifier of `build_delivery_calendar_html` assigns
exactly one of its four css classes to every `(morning, evening)` pair.  Per
the legend, `"white-cell"` = BothPresent, `"yellow-cell"` = EveningMissing,
`"pink-cell"` = MorningMissing, `"red-cell"` = BothMissing.  The
characterizations below give the claimed `== 0` / `> 0` rules on
non-negative quantities, and a negative (malformed) quantity always falls
under the corresponding missing branch, never under "present". -/
theorem C6_status_classification (m ev : ℚ) :
    (dayStatusClass m ev = "white-cell" ↔ 0 < m ∧ 0 < ev)
    ∧ (dayStatusClass m ev = "yellow-cell" ↔ 0 < m ∧ ¬ 0 < ev)
    ∧ (dayStatusClass m ev = "pink-cell" ↔ ¬ 0 < m ∧ 0 < ev)
    ∧ (dayStatusClass m ev = "red-cell" ↔ ¬ 0 < m ∧ ¬ 0 < ev)
    ∧ (m ≤ 0 → dayStatusClass m ev ≠ "white-cell" ∧ dayStatusClass m ev ≠ "yellow-cell")
    ∧ (ev ≤ 0 → dayStatusClass m ev ≠ "white-cell" ∧ dayStatusClass m ev ≠ "pink-cell") := by
  by_cases h1 : 0 < m <;> by_cases h2 : 0 < ev <;>
    simp [dayStatusClass, h1, h2]

/-- Witness for C6: each rule fires at a concrete pair, and a negative
morning quantity is never classified as present. -/
theorem C6_status_classification_witness :
    dayStatusClass 2 1 = "white-cell"
    ∧ dayStatusClass 2 0 = "yellow-cell"
    ∧ dayStatusClass 0 1 = "pink-cell"
    ∧ dayStatusClass 0 0 = "red-cell"
    ∧ dayStatusClass (-1) 5 ≠ "white-cell" :=
  ⟨(C6_status_classification 2 1).1.mpr (by norm_num),
   (C6_status_classification 2 0).2.1.mpr (by norm_num),
   (C6_status_classification 0 1).2.2.1.mpr (by norm_num),
   (C6_status_classification 0 0).2.2.2.1.mpr (by norm_num),
   ((C6_status_classification (-1) 5).2.2.2.2.1 (by norm_num)).1⟩

/-- C7: when the payment table has no amount-like column,
`payments_for_customer_in_period` returns `(0.0, empty)` rather than raising,
and this output is identical to the one produced for a well-formed table
that simply contains no payment rows — callers cannot tell the two apart. -/
theorem C7_no_amount_column_degrades (pay : Tbl) (cust : String) (s t : ℤ)
    (h : findAmountCol pay.cols = none) :
    payments_for_customer_in_period pay cust s t = (0, [])
    ∧ payments_for_customer_in_period noPaymentsTbl cust s t = (0, []) := by
  constructor
  · by_cases hr : pay.rows.isEmpty <;> simp [payments_for_customer_in_period, hr, h]
  · simp [payments_for_customer_in_period, noPaymentsTbl]

/-- Witness for C7: a concrete table whose columns are
`["Name", "Litres", "Date"]` (no amount-like name) yields `(0, [])`. -/
theorem C7_no_amount_column_degrades_witness :
    payments_for_customer_in_period noAmountColTbl "a" 1 30 = (0, [])
    ∧ payments_for_customer_in_period noPaymentsTbl "a" 1 30 = (0, []) :=
  C7_no_amount_column_degrades noAmountColTbl "a" 1 30 (by decide)

/-- C8 counterexample: with no deliveries, no prior bills, and a single
in-period payment of 0.004 (= 1/250), the code's quick due estimate is
`round(-0.004, 2) = 0`, not the claim's exact value
`prior + charge - payments = -0.004`. -/
theorem C8_counterexample_rounding :
    (singleCustomerBilling emptyDist emptyDist
        (singlePaymentTbl (1/250) 5) emptyTbl "a" 1 10 60).1 = 0
    ∧ current_outstanding_from_bills emptyTbl "a"
        + generated_amount emptyDist emptyDist "a" 1 10 60
        - (payments_for_customer_in_period (singlePaymentTbl (1/250) 5) "a" 1 10).1 = -(1/250)
    ∧ (-(1/250) : ℚ) ≠ 0 := by
  refine ⟨?_, ?_, by norm_num⟩ <;> with_unfolding_all decide

/-- C8 (amended): for both the single-customer and the `"All customers"`
computation, the quick due estimate equals
`round(prior_balance + period_charge - period_payments, 2)` — the exact sum
rounded to 2 decimals — and no clamping to zero is applied: whenever the
exact sum is below -1/200 (so rounding cannot lift it to 0), the returned
due estimate is strictly negative, signalling a customer credit. -/
theorem C8_amended_rounded_no_clamping (dfm dfe : DistTbl) (pay bills : Tbl)
    (cust : String) (s t : ℤ) (rate : ℚ) :
    (singleCustomerBilling dfm dfe pay bills cust s t rate).1 =
      round2 (current_outstanding_from_bills bills cust
        + generated_amount dfm dfe cust s t rate
        - (payments_for_customer_in_period pay cust s t).1)
    ∧ (current_outstanding_from_bills bills cust
        + generated_amount dfm dfe cust s t rate
        - (payments_for_customer_in_period pay cust s t).1 < -(1/200) →
       (singleCustomerBilling dfm dfe pay bills cust s t rate).1 < 0)
    ∧ allCustomersQuickDue dfm dfe pay bills s t rate =
      round2 (current_outstanding_from_bills bills "All customers"
        + generated_total dfm dfe s t rate
        - (payments_for_customer_in_period pay "All customers" s t).1)
    ∧ (current_outstanding_from_bills bills "All customers"
        + generated_total dfm dfe s t rate
        - (payments_for_customer_in_period pay "All customers" s t).1 < -(1/200) →
       allCustomersQuickDue dfm dfe pay bills s t rate < 0) := by
  refine ⟨rfl, fun h => ?_, rfl, fun h => ?_⟩
  · exact round2_neg h
  · exact round2_neg h

/-- Witness for C8's amended theorem: an in-period payment of 100 with no
deliveries and no prior bills produces a strictly negative due estimate in
both modes. -/
theorem C8_amended_rounded_no_clamping_witness :
    (singleCustomerBilling emptyDist emptyDist
        (singlePaymentTbl 100 5) emptyTbl "a" 1 10 60).1 < 0
    ∧ allCustomersQuickDue emptyDist emptyDist (singlePaymentTbl 100 5) emptyTbl 1 10 60 < 0 :=
  ⟨(C8_amended_rounded_no_clamping emptyDist emptyDist
      (singlePaymentTbl 100 5) emptyTbl "a" 1 10 60).2.1 (by with_unfolding_all decide),
   (C8_amended_rounded_no_clamping emptyDist emptyDist
      (singlePaymentTbl 100 5) emptyTbl "a" 1 10 60).2.2.2 (by with_unfolding_all decide)⟩

/-- A prior-bills table with a Balance column and two rows for customer
`"a"`: the first row's Balance cell is numeric (`b1`), the second row's
Balance cell is non-numeric (NaN) while its AmountBilled/PaymentsApplied are
`ab2`/`pa2`. -/
def billsMixedTbl (b1 ab1 pa1 ab2 pa2 : ℚ) : Tbl :=
  { cols := ["CustomerName", "AmountBilled", "PaymentsApplied", "Balance"]
    rows := [ { cells := [("CustomerName", Cell.ofStr "a"), ("AmountBilled", Cell.ofNum ab1),
                          ("PaymentsApplied", Cell.ofNum pa1), ("Balance", Cell.ofNum b1)] },
              { cells := [("CustomerName", Cell.ofStr "a"), ("AmountBilled", Cell.ofNum ab2),
                          ("PaymentsApplied", Cell.ofNum pa2), ("Balance", Cell.na)] } ] }

/-- A prior-bills table with a NaN Balance cell and NO PaymentsApplied
column at all. -/
def billsNoPayColTbl (ab : ℚ) : Tbl :=
  { cols := ["CustomerName", "AmountBilled", "Balance"]
    rows := [ { cells := [("CustomerName", Cell.ofStr "a"), ("AmountBilled", Cell.ofNum ab),
                          ("Balance", Cell.na)] } ] }

/-- C9: the fallback from the Balance column to AmountBilled − PaymentsApplied
is per ROW, not per table: in a table holding both a numeric-Balance row
(value `b1`, whose own `ab1 - pa1` is ignored) and a NaN-Balance row (which
contributes its `ab2 - pa2`), the customer's prior balance is the sum of the
per-row values, `b1 + (ab2 - pa2)`; and an absent PaymentsApplied column
makes that side contribute 0, so a NaN-Balance row yields `ab - 0`. -/
theorem C9_per_row_balance_fallback (b1 ab1 pa1 ab2 pa2 ab : ℚ) :
    current_outstanding_from_bills (billsMixedTbl b1 ab1 pa1 ab2 pa2) "a" = b1 + (ab2 - pa2)
    ∧ current_outstanding_from_bills (billsNoPayColTbl ab) "a" = ab - 0 := by
  constructor <;>
    simp [current_outstanding_from_bills, billsMixedTbl, billsNoPayColTbl, TblRow.cell,
      List.lookup, normNameCell, Cell.ofStr, Cell.ofNum, Cell.na]

/-- C10: the generated invoice preview row for a single customer always has
`PaymentsApplied = 0.0`, `Status = "DUE"`, and
`Balance = AmountBilled = MilkCharge = round(total_litres * rate, 2)`,
no matter what payment table is supplied — swapping the payment table for
any other leaves the invoice row unchanged (payments only affect the
separate quick due estimate). -/
theorem C10_invoice_row_ignores_payments (dfm dfe : DistTbl) (pay pay2 bills : Tbl)
    (cust : String) (s t : ℤ) (rate : ℚ) :
    (singleCustomerBilling dfm dfe pay bills cust s t rate).2.paymentsApplied = 0
    ∧ (singleCustomerBilling dfm dfe pay bills cust s t rate).2.status = "DUE"
    ∧ (singleCustomerBilling dfm dfe pay bills cust s t rate).2.balance
      = (singleCustomerBilling dfm dfe pay bills cust s t rate).2.amountBilled
    ∧ (singleCustomerBilling dfm dfe pay bills cust s t rate).2.amountBilled
      = (singleCustomerBilling dfm dfe pay bills cust s t rate).2.milkCharge
    ∧ (singleCustomerBilling dfm dfe pay bills cust s t rate).2.milkCharge
      = round2 (total_delivered_for_customer dfm dfe cust s t * rate)
    ∧ (singleCustomerBilling dfm dfe pay2 bills cust s t rate).2
      = (singleCustomerBilling dfm dfe pay bills cust s t rate).2 :=
  ⟨rfl, rfl, rfl, rfl, rfl, rfl⟩
